import Mathlib

/-!
Verification of `src/lightweight-client-express.js` (an OpenAI-compatible
gateway in front of a cookie-authenticated upstream chat service).

The development shallowly embeds the request handlers of that file:
JavaScript values produced by `JSON.parse` become the inductive `JsonVal`,
property access with JavaScript's throw-on-null/undefined semantics becomes
an `Except Unit` computation, and the Express handlers become pure functions
from their inputs (configuration flags, parsed request body, the list of
chunk strings delivered by the upstream stream) to a record of the response
and the observable effects (headers set, collaborator calls).

`JSON.parse` itself is a platform builtin; it is modelled here by a strict
recursive-descent parser over the character list.  Numbers are kept exactly
as mantissa/exponent pairs (no floating point is needed by any property
below).
-/

/-- JavaScript values resulting from `JSON.parse`: null, booleans, numbers
(kept as `m * 10 ^ e` with integer mantissa and exponent), strings, arrays
and objects (field lists in textual order, duplicates kept). -/
inductive JsonVal where
  | nullV : JsonVal
  | boolV : Bool → JsonVal
  | numV : Int → Int → JsonVal
  | strV : String → JsonVal
  | arrV : List JsonVal → JsonVal
  | objV : List (String × JsonVal) → JsonVal
deriving Repr

/-- JSON whitespace (also the characters relevant for `String.prototype.trim`
on the ASCII inputs that occur here). -/
def isWsChar (c : Char) : Bool :=
  c == ' ' || c == '\t' || c == '\n' || c == '\r'

/-- Drop leading JSON whitespace. -/
def skipWs : List Char → List Char
  | [] => []
  | c :: cs => if isWsChar c then skipWs cs else c :: cs

/-- Value of a hexadecimal digit, for `\uXXXX` escapes. -/
def hexVal (c : Char) : Option Nat :=
  if '0' ≤ c ∧ c ≤ '9' then some (c.toNat - '0'.toNat)
  else if 'a' ≤ c ∧ c ≤ 'f' then some (c.toNat - 'a'.toNat + 10)
  else if 'A' ≤ c ∧ c ≤ 'F' then some (c.toNat - 'A'.toNat + 10)
  else none

/-- Body of a JSON string literal, after the opening quote: returns the
decoded characters and the remainder after the closing quote.  Raw control
characters below U+0020 are rejected, as `JSON.parse` rejects them. -/
def parseStrBody (fuel : Nat) (cs : List Char) : Option (List Char × List Char) :=
  match fuel, cs with
  | 0, _ => none
  | _, [] => none
  | fuel + 1, c :: cs =>
    if c == '"' then some ([], cs)
    else if c == '\\' then
      match cs with
      | '"' :: rest => (parseStrBody fuel rest).map (fun p => ('"' :: p.1, p.2))
      | '\\' :: rest => (parseStrBody fuel rest).map (fun p => ('\\' :: p.1, p.2))
      | '/' :: rest => (parseStrBody fuel rest).map (fun p => ('/' :: p.1, p.2))
      | 'b' :: rest => (parseStrBody fuel rest).map (fun p => ('\x08' :: p.1, p.2))
      | 'f' :: rest => (parseStrBody fuel rest).map (fun p => ('\x0c' :: p.1, p.2))
      | 'n' :: rest => (parseStrBody fuel rest).map (fun p => ('\n' :: p.1, p.2))
      | 'r' :: rest => (parseStrBody fuel rest).map (fun p => ('\r' :: p.1, p.2))
      | 't' :: rest => (parseStrBody fuel rest).map (fun p => ('\t' :: p.1, p.2))
      | 'u' :: h1 :: h2 :: h3 :: h4 :: rest =>
        match hexVal h1, hexVal h2, hexVal h3, hexVal h4 with
        | some a, some b, some c', some d =>
          (parseStrBody fuel rest).map
            (fun p => (Char.ofNat (((a * 16 + b) * 16 + c') * 16 + d) :: p.1, p.2))
        | _, _, _, _ => none
      | _ => none
    else if c.toNat < 0x20 then none
    else (parseStrBody fuel cs).map (fun p => (c :: p.1, p.2))

/-- Longest leading run of decimal digits. -/
def takeDigits : List Char → List Char × List Char
  | [] => ([], [])
  | c :: cs =>
    if '0' ≤ c ∧ c ≤ '9' then
      let p := takeDigits cs
      (c :: p.1, p.2)
    else ([], c :: cs)

/-- Natural number denoted by a digit string. -/
def digitsToNat (ds : List Char) : Nat :=
  ds.foldl (fun acc c => acc * 10 + (c.toNat - '0'.toNat)) 0

/-- JSON number grammar: optional minus, integer part without leading zeros,
optional fraction, optional exponent.  Returns `numV m e` denoting
`m * 10 ^ e`, and the remaining characters. -/
def parseNum (cs : List Char) : Option (JsonVal × List Char) :=
  let (neg, cs1) :=
    match cs with
    | '-' :: rest => (true, rest)
    | _ => (false, cs)
  match cs1 with
  | [] => none
  | c :: _ =>
    if ¬('0' ≤ c ∧ c ≤ '9') then none
    else
      let (intDs, cs2) := takeDigits cs1
      if intDs.length > 1 ∧ intDs.headD '0' == '0' then none
      else
        let (fracDs, cs3) :=
          match cs2 with
          | '.' :: rest =>
            let p := takeDigits rest
            if p.1 = [] then ([], cs2) else (p.1, p.2)
          | _ => ([], cs2)
        if cs2 ≠ cs3 ∧ fracDs = [] then none
        else
          match cs3 with
          | e :: rest =>
            if e == 'e' ∨ e == 'E' then
              let (eneg, rest1) :=
                match rest with
                | '-' :: r => (true, r)
                | '+' :: r => (false, r)
                | _ => (false, rest)
              let (expDs, cs4) := takeDigits rest1
              if expDs = [] then none
              else
                let m : Int := (if neg then -1 else 1) * (digitsToNat (intDs ++ fracDs) : Int)
                let ex : Int := (if eneg then -(digitsToNat expDs : Int) else (digitsToNat expDs : Int)) - fracDs.length
                some (.numV m ex, cs4)
            else
              let m : Int := (if neg then -1 else 1) * (digitsToNat (intDs ++ fracDs) : Int)
              some (.numV m (-(fracDs.length : Int)), e :: rest)
          | [] =>
            let m : Int := (if neg then -1 else 1) * (digitsToNat (intDs ++ fracDs) : Int)
            some (.numV m (-(fracDs.length : Int)), [])

mutual

/-- One JSON value, by recursive descent with explicit fuel. -/
def parseVal (fuel : Nat) (cs : List Char) : Option (JsonVal × List Char) :=
  match fuel with
  | 0 => none
  | fuel + 1 =>
    match skipWs cs with
    | 'n' :: 'u' :: 'l' :: 'l' :: rest => some (.nullV, rest)
    | 't' :: 'r' :: 'u' :: 'e' :: rest => some (.boolV true, rest)
    | 'f' :: 'a' :: 'l' :: 's' :: 'e' :: rest => some (.boolV false, rest)
    | '"' :: rest =>
      (parseStrBody (rest.length + 1) rest).map (fun p => (.strV (String.mk p.1), p.2))
    | '[' :: rest =>
      match skipWs rest with
      | ']' :: r2 => some (.arrV [], r2)
      | r2 => (parseElems fuel r2).map (fun p => (.arrV p.1, p.2))
    | '\x7b' :: rest =>
      match skipWs rest with
      | '\x7d' :: r2 => some (.objV [], r2)
      | r2 => (parseFields fuel r2).map (fun p => (.objV p.1, p.2))
    | cs' => parseNum cs'

/-- Comma-separated array elements up to the closing bracket. -/
def parseElems (fuel : Nat) (cs : List Char) : Option (List JsonVal × List Char) :=
  match fuel with
  | 0 => none
  | fuel + 1 =>
    match parseVal fuel cs with
    | none => none
    | some (v, rest) =>
      match skipWs rest with
      | ',' :: r2 => (parseElems fuel r2).map (fun p => (v :: p.1, p.2))
      | ']' :: r2 => some ([v], r2)
      | _ => none

/-- Comma-separated `"key": value` fields up to the closing brace. -/
def parseFields (fuel : Nat) (cs : List Char) : Option (List (String × JsonVal) × List Char) :=
  match fuel with
  | 0 => none
  | fuel + 1 =>
    match skipWs cs with
    | '"' :: rest =>
      match parseStrBody (rest.length + 1) rest with
      | none => none
      | some (key, r1) =>
        match skipWs r1 with
        | ':' :: r2 =>
          match parseVal fuel r2 with
          | none => none
          | some (v, r3) =>
            match skipWs r3 with
            | ',' :: r4 => (parseFields fuel r4).map (fun p => ((String.mk key, v) :: p.1, p.2))
            | '\x7d' :: r4 => some ([(String.mk key, v)], r4)
            | _ => none
        | _ => none
    | _ => none

end

/-- Model of the builtin `JSON.parse` on a character list: one value, then
only trailing whitespace; `none` models a thrown `SyntaxError`. -/
def jsonParseChars (cs : List Char) : Option JsonVal :=
  match parseVal (2 * cs.length + 2) cs with
  | some (v, rest) => if skipWs rest = [] then some v else none
  | none => none

/-- `JSON.parse` on strings. -/
def jsonParse (s : String) : Option JsonVal :=
  jsonParseChars s.data

/-! ## JavaScript expression semantics used by the handlers

`Option JsonVal` is a JavaScript value-or-`undefined`; `none` is
`undefined`.  Property and index access on `null` or `undefined` throws a
`TypeError`, modelled by `Except Unit`. -/

/-- JavaScript truthiness of a value-or-undefined: `undefined`, `null`,
`false`, `0`, `NaN` and `""` are falsy, everything else (including `[]` and
`{}`) is truthy. -/
def jsTruthy : Option JsonVal → Bool
  | none => false
  | some .nullV => false
  | some (.boolV b) => b
  | some (.numV m _) => m != 0
  | some (.strV s) => s != ""
  | some (.arrV _) => true
  | some (.objV _) => true

/-- `obj.key` in JavaScript: throws on `null`/`undefined`; on objects the
last binding of the key wins (as in `JSON.parse` with duplicate keys);
on other primitives and arrays the named property is absent here, giving
`undefined`. -/
def getProp (v : Option JsonVal) (key : String) : Except Unit (Option JsonVal) :=
  match v with
  | none => .error ()
  | some .nullV => .error ()
  | some (.objV fields) =>
    .ok ((fields.reverse.find? (fun f => f.1 == key)).map (fun f => f.2))
  | some _ => .ok none

/-- `v[0]` in JavaScript: throws on `null`/`undefined`; first element of an
array (or `undefined` if empty); first character of a string; the field
named `"0"` of an object; `undefined` on other primitives. -/
def getIndex0 (v : Option JsonVal) : Except Unit (Option JsonVal) :=
  match v with
  | none => .error ()
  | some .nullV => .error ()
  | some (.arrV xs) => .ok xs.head?
  | some (.strV s) => .ok ((s.data.head?).map (fun c => JsonVal.strV (String.mk [c])))
  | some (.objV fields) =>
    .ok ((fields.reverse.find? (fun f => f.1 == "0")).map (fun f => f.2))
  | some _ => .ok none

mutual

/-- `String(v)` for a JavaScript value.  Number formatting is approximated
(exact mantissa/exponent rendering instead of double formatting); no
property below evaluates it on a number. -/
def jsToString : JsonVal → String
  | .nullV => "null"
  | .boolV b => cond b "true" "false"
  | .numV m e => if e = 0 then toString m else toString m ++ "e" ++ toString e
  | .strV s => s
  | .arrV xs => jsToStringList xs
  | .objV _ => "[object Object]"

/-- `Array.prototype.toString`: elements joined by commas. -/
def jsToStringList : List JsonVal → String
  | [] => ""
  | [x] => jsToString x
  | x :: y :: xs => jsToString x ++ "," ++ jsToStringList (y :: xs)

end

/-- The guarded push of the non-streaming `data` handler
(`lightweight-client-express.js` lines 171-173):

`if (chunkData.choices && chunkData.choices[0].delta &&
chunkData.choices[0].delta.content) { chunks.push(...content) }`

with JavaScript short-circuiting and `TypeError` propagation (accessing
`.delta` of `undefined` throws when `choices` is a non-empty-check-passing
value whose first element is absent).  `ok (some s)` means `s` was pushed
(already rendered by `String`, as `join` will render it); `ok none` means
the guard was falsy; `error` means a `TypeError` reached the `catch`. -/
def extractContent (chunkData : JsonVal) : Except Unit (Option String) := do
  let choices ← getProp (some chunkData) "choices"
  if jsTruthy choices then
    let c0 ← getIndex0 choices
    let delta ← getProp c0 "delta"
    if jsTruthy delta then
      let content ← getProp delta "content"
      if jsTruthy content then
        return some (jsToString (content.getD .nullV))
      else
        return none
    else
      return none
  else
    return none

/-- `"data: "` as characters (the prefix tested at line 166). -/
def dataTag : List Char := ['d', 'a', 't', 'a', ':', ' ']

/-- `"[DONE]"` as characters (the substring tested at line 166). -/
def doneTag : List Char := ['[', 'D', 'O', 'N', 'E', ']']

/-- `String.prototype.includes`: `sub` occurs somewhere in the list. -/
def containsSeq (sub : List Char) : List Char → Bool
  | [] => sub.isEmpty
  | c :: cs => sub.isPrefixOf (c :: cs) || containsSeq sub cs

/-- `String.prototype.trim` (the whitespace that occurs in this protocol is
ASCII). -/
def trimChars (cs : List Char) : List Char :=
  (cs.dropWhile isWsChar).reverse.dropWhile isWsChar |>.reverse

/-- One iteration of the non-streaming `stream.on('data')` handler
(`lightweight-client-express.js` lines 162-179) on the text of one read
chunk: `some s` when `s` is appended to `chunks`, `none` otherwise.

```
if (chunkStr.startsWith('data: ') && !chunkStr.includes('[DONE]')) {
  try {
    const dataJson = chunkStr.substring(6).trim();
    if (dataJson) {
      const chunkData = JSON.parse(dataJson);
      if (chunkData.choices && chunkData.choices[0].delta
          && chunkData.choices[0].delta.content) {
        chunks.push(chunkData.choices[0].delta.content);
      }
    }
  } catch (error) { /- logged, swallowed -/ }
}
```
-/
def processChunk (chunkStr : String) : Option String :=
  let cs := chunkStr.data
  if dataTag.isPrefixOf cs && !containsSeq doneTag cs then
    let dataJson := trimChars (cs.drop 6)
    if dataJson ≠ [] then
      match jsonParseChars dataJson with
      | none => none
      | some chunkData =>
        match extractContent chunkData with
        | .error _ => none
        | .ok r => r
    else none
  else none

/-- The `chunks` array after the stream delivered `chunkStrs` and ended:
each chunk contributes through `processChunk`, in arrival order. -/
def accumulate (chunkStrs : List String) : List String :=
  chunkStrs.filterMap processChunk

/-- `chunks.join('')` at line 190. -/
def joinedContent (chunkStrs : List String) : String :=
  String.join (accumulate chunkStrs)

/-- The aggregated completion assembled in `stream.on('end')` (lines
181-198).  `id` (a fresh UUID) and `created` (current time) are
nondeterministic environment reads and are not modelled; `usage` is the
constant all-null record. -/
structure FullResponse where
  object : String
  model : Option JsonVal
  content : String
  finish_reason : String

/-- Lines 183-194: the non-streaming response body.  Note the literal
`finish_reason: "stop"` — the handler never reads a finish reason from the
stream. -/
def fullResponse (model : Option JsonVal) (chunkStrs : List String) : FullResponse :=
  { object := "chat.completion"
    model := model
    content := joinedContent chunkStrs
    finish_reason := "stop" }

/-! ## Authentication middleware (lines 47 and 59-86) -/

/-- Line 47: `const EXPECTED_TOKEN = process.env.PROXY_AUTH_TOKEN ||
"default_token"` — the environment variable (a string when set) is used
unless it is absent or empty (the only falsy string). -/
def expectedTokenOfEnv : Option String → String
  | none => "default_token"
  | some v => if v = "" then "default_token" else v

/-- `"Bearer "` as characters, for `authHeader.startsWith('Bearer ')`. -/
def bearerTag : List Char := ['B', 'e', 'a', 'r', 'e', 'r', ' ']

/-- `String.prototype.split` with a one-character separator: splits at every
occurrence, keeping empty fields (`"a  b".split(' ') = ["a","","b"]`,
`"".split(' ') = [""]`). -/
def splitChar (sep : Char) : List Char → List (List Char)
  | [] => [[]]
  | c :: cs =>
    if c = sep then [] :: splitChar sep cs
    else
      match splitChar sep cs with
      | [] => [[c]]
      | g :: gs => (c :: g) :: gs

/-- Result of the `authenticate` middleware: either a JSON error response
(status, message, `error.type`) or `next()` was called. -/
inductive AuthResult where
  | rejected : Nat → String → String → AuthResult
  | nextCalled : AuthResult
deriving DecidableEq, Repr

/-- Lines 59-86.  `req.headers.authorization` is `none` when the header is
absent.  `!authHeader` also catches the empty header (falsy); then
`authHeader.split(' ')[1]` is compared to the expected token, `undefined`
(when there is no second field) comparing unequal to every string. -/
def authenticate (expectedToken : String) (authHeader : Option String) : AuthResult :=
  if authHeader = none ∨ authHeader = some "" ∨
      ¬ bearerTag.isPrefixOf ((authHeader.getD "").data) then
    .rejected 401 "Authentication required. Please provide a valid Bearer token."
      "authentication_error"
  else
    match (splitChar ' ' ((authHeader.getD "").data))[1]? with
    | some token =>
      if token = expectedToken.data then .nextCalled
      else .rejected 401 "Invalid authentication credentials" "authentication_error"
    | none => .rejected 401 "Invalid authentication credentials" "authentication_error"

/-! ## The POST /v1/chat/completions handler (lines 105-218) -/

/-- The response emitted by the chat-completions handler: a JSON error body
(status, `error.message`, `error.type`), the streaming branch's
`stream.pipe(res)`, or the non-streaming branch's `res.json(fullResponse)`
(status 200). -/
inductive ChatResponse where
  | errorJson : Nat → String → String → ChatResponse
  | streamPiped : ChatResponse
  | completionJson : FullResponse → ChatResponse

/-- The handler's response together with its observable effects:
`headersSet` lists `res.setHeader` calls in order; `closeCallsStreamEnd`
records whether `req.on('close', ...)` was registered to call
`stream.end()`; `validCountRead` records whether
`cookieManager.getValidCount()` was called; `buildCalled` records whether
`buildNotionRequest` was called; `upstreamCalls` counts contacts with the
upstream service. -/
structure HandlerOutcome where
  response : ChatResponse
  headersSet : List (String × String)
  closeCallsStreamEnd : Bool
  validCountRead : Bool
  buildCalled : Bool
  upstreamCalls : Nat

/-- Line 127: `!requestData.messages || !Array.isArray(requestData.messages)
|| requestData.messages.length === 0`, with short-circuiting (`.length` is
only read once the value is known to be an array).  `error` is a thrown
`TypeError` (body `null`), reaching the handler's `catch`. -/
def messagesCheck (requestData : JsonVal) : Except Unit Bool := do
  let m ← getProp (some requestData) "messages"
  if ¬ jsTruthy m then
    return true
  else
    match m with
    | some (.arrV xs) => return xs.length = 0
    | _ => return true

/-- Line 137: truthiness of `requestData.stream`. -/
def streamFlag (requestData : JsonVal) : Except Unit Bool := do
  let s ← getProp (some requestData) "stream"
  return jsTruthy s

/-- Line 187: the `model` field echoed into the aggregated response. -/
def modelField (requestData : JsonVal) : Option JsonVal :=
  match getProp (some requestData) "model" with
  | .ok v => v
  | .error _ => none

/-- Lines 138-140. -/
def streamingHeaders : List (String × String) :=
  [("Content-Type", "text-event-stream"),
   ("Cache-Control", "no-cache"),
   ("Connection", "keep-alive")]

/-- Lines 105-218, as a function of the configuration flags, the parsed
request body and the chunk strings the upstream stream would deliver.

The checks appear in source order: `INITIALIZED_SUCCESSFULLY` (line 110),
`cookieManager.getValidCount() === 0` (line 117), the `messages` validation
(line 127), `buildNotionRequest` (line 134), then the `requestData.stream`
branch (line 137).

`egressAvailable` — Modelled from the spec: the egress/proxy pool and the
`streamNotionResponse` core live in `lightweight-client.js` /
`ProxyPool.js`, which are not part of the visible source; per the spec the
core fails fast with `NoEgressAvailable` when the egress pool's selection
signals exhaustion, before any upstream contact, and the thrown error is
turned into a 500 `server_error` body by the handler's `catch` (lines
209-217).  A thrown `TypeError` from the body checks reaches the same
`catch`; its interpolated message (line 214) is abstracted to the constant
prefix. -/
def chatCompletionsHandler (initializedSuccessfully : Bool)
    (validCookieCount : Nat) (egressAvailable : Bool) (requestData : JsonVal)
    (upstreamChunks : List String) : HandlerOutcome :=
  if initializedSuccessfully = false then
    ⟨.errorJson 500 "系统未成功初始化。请检查您的NOTION_COOKIE是否有效。" "server_error",
      [], false, false, false, 0⟩
  else if validCookieCount = 0 then
    ⟨.errorJson 500 "没有可用的有效cookie。请检查您的NOTION_COOKIE配置。" "server_error",
      [], false, true, false, 0⟩
  else
    match messagesCheck requestData with
    | .error _ =>
      ⟨.errorJson 500 "Internal server error: " "server_error", [], false, true, false, 0⟩
    | .ok true =>
      ⟨.errorJson 400 "Invalid request: 'messages' field must be a non-empty array."
        "invalid_request_error", [], false, true, false, 0⟩
    | .ok false =>
      match streamFlag requestData with
      | .error _ =>
        ⟨.errorJson 500 "Internal server error: " "server_error", [], false, true, true, 0⟩
      | .ok true =>
        if egressAvailable then
          ⟨.streamPiped, streamingHeaders, true, true, true, 1⟩
        else
          ⟨.errorJson 500 "Internal server error: NoEgressAvailable" "server_error",
            streamingHeaders, false, true, true, 0⟩
      | .ok false =>
        if egressAvailable then
          ⟨.completionJson (fullResponse (modelField requestData) upstreamChunks),
            [], false, true, true, 1⟩
        else
          ⟨.errorJson 500 "Internal server error: NoEgressAvailable" "server_error",
            [], false, true, true, 0⟩

/-- Status code of a handler response (`streamPiped` and `completionJson`
are sent with the default 200). -/
def responseStatus : ChatResponse → Nat
  | .errorJson s _ _ => s
  | .streamPiped => 200
  | .completionJson _ => 200

/-- The `error.type` field of a handler response, when it is an error. -/
def responseErrType : ChatResponse → Option String
  | .errorJson _ _ t => some t
  | .streamPiped => none
  | .completionJson _ => none

/-! ## Spec-side observers

The next two definitions follow the specification's words, not the source;
they exist only to compare the source's behaviour against the
specification's predictions. -/

/-- Modelled from the spec: "`finishReason` = the last non-null
`finishReason` seen" reads, for one well-formed `data: ` event, the field
`choices[0].finish_reason` of the parsed payload when it is a string. -/
def specEventFinishReason (chunkStr : String) : Option String :=
  if dataTag.isPrefixOf chunkStr.data then
    match jsonParseChars (trimChars (chunkStr.data.drop 6)) with
    | some (JsonVal.objV fields) =>
      match (fields.reverse.find? (fun f => f.1 == "choices")).map (fun f => f.2) with
      | some (JsonVal.arrV (JsonVal.objV cfields :: _)) =>
        match (cfields.reverse.find? (fun f => f.1 == "finish_reason")).map (fun f => f.2) with
        | some (JsonVal.strV s) => some s
        | _ => none
      | _ => none
    | _ => none
  else none

/-- Modelled from the spec: the `finishReason` the specification predicts
for a non-streaming response — the last non-null `finishReason` observed
across the stream, `"stop"` when none was observed. -/
def specFinishReason (chunkStrs : List String) : String :=
  ((chunkStrs.filterMap specEventFinishReason).getLast?).getD "stop"

/-- The `deltaContent` a well-formed `data: ` event carries, ignoring the
`includes('[DONE]')` filter: the payload is parsed and the same guarded
extraction is applied.  Used to exhibit events that carry content yet are
dropped by that filter. -/
def eventDeltaContent (chunkStr : String) : Option String :=
  if dataTag.isPrefixOf chunkStr.data then
    match jsonParseChars (trimChars (chunkStr.data.drop 6)) with
    | some v =>
      match extractContent v with
      | .ok r => r
      | .error _ => none
    | none => none
  else none

/-! ## Concrete inputs used by the properties below -/

/-- The spec's round-trip example: two content events and the sentinel. -/
def roundTripEvents : List String :=
  ["data: \x7b\"choices\":[\x7b\"delta\":\x7b\"content\":\"Hel\"\x7d\x7d]\x7d",
   "data: \x7b\"choices\":[\x7b\"delta\":\x7b\"content\":\"lo\"\x7d\x7d]\x7d",
   "data: [DONE]"]

/-- An event whose delta carries `"Hi"` and a null finish reason. -/
def finishEvA : String :=
  "data: \x7b\"choices\":[\x7b\"delta\":\x7b\"content\":\"Hi\"\x7d,\"finish_reason\":null\x7d]\x7d"

/-- A final event carrying the non-null finish reason `"length"`. -/
def finishEvB : String :=
  "data: \x7b\"choices\":[\x7b\"delta\":\x7b\x7d,\"finish_reason\":\"length\"\x7d]\x7d"

/-- A complete well-formed event carrying `"X"`. -/
def splitFullEvent : String := "data: \x7b\"choices\":[\x7b\"delta\":\x7b\"content\":\"X\"\x7d\x7d]\x7d"

/-- The first half of `splitFullEvent` when a read boundary falls inside
the payload. -/
def splitPartA : String := "data: \x7b\"choices\":[\x7b\"delta\":"

/-- The second half of `splitFullEvent` after that read boundary. -/
def splitPartB : String := "\x7b\"content\":\"X\"\x7d\x7d]\x7d"

/-- A well-formed event whose generated content itself contains `[DONE]`. -/
def doneContentEvent : String :=
  "data: \x7b\"choices\":[\x7b\"delta\":\x7b\"content\":\"ab [DONE] cd\"\x7d\x7d]\x7d"

/-- A chat request body whose `messages` is the empty array. -/
def emptyMsgsBody : JsonVal := .objV [("messages", .arrV [])]

/-- A valid non-streaming chat request body (`stream` absent). -/
def validBody : JsonVal :=
  .objV [("model", .strV "anthropic-sonnet-4"),
         ("messages", .arrV [.objV [("role", .strV "user"), ("content", .strV "hi")]])]

/-- The same request with `stream: true`. -/
def validStreamBody : JsonVal :=
  .objV [("model", .strV "anthropic-sonnet-4"),
         ("messages", .arrV [.objV [("role", .strV "user"), ("content", .strV "hi")]]),
         ("stream", .boolV true)]

/-! ## Helper lemmas -/

theorem stringJoinAppend (l1 l2 : List String) :
    String.join (l1 ++ l2) = String.join l1 ++ String.join l2 := by
  apply String.ext
  simp [String.join_eq]

theorem accumulateAppend (a b : List String) :
    accumulate (a ++ b) = accumulate a ++ accumulate b := by
  simp [accumulate]

theorem bearerTag_not_prefix_nil : bearerTag.isPrefixOf ([] : List Char) = false := by decide

theorem authNextIff (expected : String) (hdr : Option String) :
    authenticate expected hdr = .nextCalled ↔
      ∃ h, hdr = some h ∧ bearerTag.isPrefixOf h.data = true ∧
        (splitChar ' ' h.data)[1]? = some expected.data := by
  constructor
  · intro hn
    cases hdr with
    | none => simp [authenticate] at hn
    | some h =>
      by_cases hb : bearerTag.isPrefixOf h.data
      · have hne : h ≠ "" := by
          intro he
          subst he
          rw [show ("" : String).data = [] from rfl] at hb
          exact absurd hb (by decide)
        refine ⟨h, rfl, hb, ?_⟩
        simp [authenticate, hb, hne] at hn
        cases e : (splitChar ' ' h.data)[1]? with
        | none => rw [e] at hn; simp at hn
        | some t =>
          rw [e] at hn
          by_cases ht : t = expected.data
          · rw [ht]
          · simp [ht] at hn
      · cases hn' : authenticate expected (some h) with
        | rejected s m t => rw [hn'] at hn; simp at hn
        | nextCalled =>
          exfalso
          simp [authenticate, hb] at hn'
  · rintro ⟨h, rfl, hb, hsplit⟩
    have hne : h ≠ "" := by
      intro he
      subst he
      rw [show ("" : String).data = [] from rfl] at hb
      exact absurd hb (by decide)
    simp [authenticate, hb, hne, hsplit]

theorem authRejectedShape (expected : String) (hdr : Option String) (s : Nat) (m t : String)
    (hrej : authenticate expected hdr = .rejected s m t) :
    s = 401 ∧ t = "authentication_error" := by
  unfold authenticate at hrej
  split at hrej
  · cases hrej; exact ⟨rfl, rfl⟩
  · split at hrej
    · split at hrej
      · simp at hrej
      · cases hrej; exact ⟨rfl, rfl⟩
    · cases hrej; exact ⟨rfl, rfl⟩

/-- Once the `messages` check has evaluated without throwing, reading
`requestData.stream` cannot throw either: both property reads have the same
receiver, and `getProp` only throws on `null`/`undefined`. -/
theorem streamFlagOfMessagesOk (requestData : JsonVal) (b : Bool)
    (hmsg : messagesCheck requestData = .ok b) :
    ∃ c, streamFlag requestData = .ok c := by
  cases requestData with
  | nullV => exact Except.noConfusion hmsg
  | boolV x => exact ⟨_, rfl⟩
  | numV m e => exact ⟨_, rfl⟩
  | strV s => exact ⟨_, rfl⟩
  | arrV xs => exact ⟨_, rfl⟩
  | objV fs => exact ⟨_, rfl⟩

/-- C1 (corrected): aggregation concatenates extracted deltas in emission
order and yields "Hello"/"stop" on the round-trip example, but the finish
reason is the literal "stop" for every stream. -/
theorem c1_nonstreaming_aggregation :
    (∀ model chunkStrs, (fullResponse model chunkStrs).finish_reason = "stop") ∧
    (∀ model a b, (fullResponse model (a ++ b)).content =
      (fullResponse model a).content ++ (fullResponse model b).content) ∧
    (fullResponse none roundTripEvents).content = "Hello" ∧
    (fullResponse none roundTripEvents).finish_reason = "stop" := by
  refine ⟨fun _ _ => rfl, fun model a b => ?_, rfl, rfl⟩
  simp [fullResponse, joinedContent, accumulateAppend, stringJoinAppend]

/-- C1 counterexample: a stream whose last observed finish reason is
"length" still gets "stop". -/
theorem c1_counterexample :
    specFinishReason [finishEvA, finishEvB] = "length" ∧
    (fullResponse none [finishEvA, finishEvB]).finish_reason = "stop" ∧
    ("length" : String) ≠ "stop" :=
  ⟨rfl, rfl, by decide⟩

/-- C2 counterexample: an event split across two read chunks is dropped. -/
theorem c2_counterexample :
    joinedContent [splitFullEvent] = "X" ∧
    joinedContent [splitPartA, splitPartB] = "" ∧
    ("X" : String) ≠ "" :=
  ⟨rfl, rfl, by decide⟩

/-- C2 (corrected): no buffering across read boundaries; [DONE] chunks are
excluded from content. -/
theorem c2_no_buffering :
    processChunk splitPartA = none ∧
    processChunk splitPartB = none ∧
    joinedContent [splitPartA, splitPartB] = "" ∧
    joinedContent [splitFullEvent] = "X" ∧
    processChunk "data: [DONE]" = none ∧
    processChunk "data: [DONE]\n\n" = none :=
  ⟨rfl, rfl, rfl, rfl, rfl, rfl⟩

/-- C3 (confirmed): a malformed data event contributes nothing and later
events are still accumulated. -/
theorem c3_malformed_skipped (pre post : List String) (m : String)
    (_htag : dataTag.isPrefixOf m.data = true)
    (hbad : jsonParseChars (trimChars (m.data.drop 6)) = none) :
    accumulate (pre ++ m :: post) = accumulate pre ++ accumulate post := by
  have hnone : processChunk m = none := by
    simp [processChunk, hbad]
  simp [accumulate, List.filterMap_cons, hnone]

theorem c3_witness :
    dataTag.isPrefixOf ("data: \x7bnot json").data = true ∧
    jsonParseChars (trimChars (("data: \x7bnot json").data.drop 6)) = none ∧
    accumulate ["data: \x7b\"choices\":[\x7b\"delta\":\x7b\"content\":\"A\"\x7d\x7d]\x7d",
      "data: \x7bnot json",
      "data: \x7b\"choices\":[\x7b\"delta\":\x7b\"content\":\"B\"\x7d\x7d]\x7d"] = ["A", "B"] := by
  refine ⟨rfl, rfl, ?_⟩
  have h := c3_malformed_skipped
    ["data: \x7b\"choices\":[\x7b\"delta\":\x7b\"content\":\"A\"\x7d\x7d]\x7d"]
    ["data: \x7b\"choices\":[\x7b\"delta\":\x7b\"content\":\"B\"\x7d\x7d]\x7d"]
    "data: \x7bnot json" rfl rfl
  exact h.trans rfl

/-- C4 counterexample. -/
theorem c4_counterexample :
    responseStatus (chatCompletionsHandler true 0 true emptyMsgsBody []).response = 500 ∧
    responseErrType (chatCompletionsHandler true 0 true emptyMsgsBody []).response =
      some "server_error" ∧
    (500 : Nat) ≠ 400 ∧
    responseStatus (chatCompletionsHandler true 1 true emptyMsgsBody []).response = 400 ∧
    (chatCompletionsHandler true 1 true emptyMsgsBody []).validCountRead = true :=
  ⟨rfl, rfl, by decide, rfl, rfl⟩

/-- C4 (corrected). -/
theorem c4_validation_400 (validCookieCount : Nat) (egressAvailable : Bool)
    (requestData : JsonVal) (upstreamChunks : List String)
    (hcount : validCookieCount ≠ 0)
    (hmsg : messagesCheck requestData = .ok true) :
    chatCompletionsHandler true validCookieCount egressAvailable requestData upstreamChunks =
      ⟨.errorJson 400 "Invalid request: 'messages' field must be a non-empty array."
          "invalid_request_error",
        [], false, true, false, 0⟩ := by
  simp [chatCompletionsHandler, hcount, hmsg]

theorem c4_witness :
    (1 : Nat) ≠ 0 ∧ messagesCheck emptyMsgsBody = .ok true ∧
    chatCompletionsHandler true 1 true emptyMsgsBody [] =
      ⟨.errorJson 400 "Invalid request: 'messages' field must be a non-empty array."
          "invalid_request_error",
        [], false, true, false, 0⟩ :=
  ⟨by decide, rfl, c4_validation_400 1 true emptyMsgsBody [] (by decide) rfl⟩

/-- C5 (confirmed): exhaustion of the credential pool (valid count 0) gives
a 500 `server_error` body with no upstream contact, exhaustion of the
egress pool (Modelled from the spec, see `chatCompletionsHandler`) gives a
500 `server_error` body with no upstream contact for every request that
reaches the core, and no request ever contacts the upstream more than once
(no retry with another credential/route). -/
theorem c5_pool_exhaustion (initialized : Bool) (validCookieCount : Nat)
    (egressAvailable : Bool) (requestData : JsonVal) (upstreamChunks : List String) :
    (validCookieCount = 0 →
      responseStatus (chatCompletionsHandler initialized validCookieCount egressAvailable
        requestData upstreamChunks).response = 500 ∧
      responseErrType (chatCompletionsHandler initialized validCookieCount egressAvailable
        requestData upstreamChunks).response = some "server_error" ∧
      (chatCompletionsHandler initialized validCookieCount egressAvailable
        requestData upstreamChunks).upstreamCalls = 0) ∧
    (egressAvailable = false →
      (chatCompletionsHandler initialized validCookieCount egressAvailable
        requestData upstreamChunks).upstreamCalls = 0) ∧
    (initialized = true → validCookieCount ≠ 0 →
      messagesCheck requestData = .ok false → egressAvailable = false →
      (chatCompletionsHandler initialized validCookieCount egressAvailable
        requestData upstreamChunks).response =
        .errorJson 500 "Internal server error: NoEgressAvailable" "server_error" ∧
      responseStatus (chatCompletionsHandler initialized validCookieCount egressAvailable
        requestData upstreamChunks).response = 500 ∧
      responseErrType (chatCompletionsHandler initialized validCookieCount egressAvailable
        requestData upstreamChunks).response = some "server_error" ∧
      (chatCompletionsHandler initialized validCookieCount egressAvailable
        requestData upstreamChunks).upstreamCalls = 0) ∧
    (chatCompletionsHandler initialized validCookieCount egressAvailable
      requestData upstreamChunks).upstreamCalls ≤ 1 := by
  refine ⟨?_, ?_, ?_, ?_⟩
  · intro h0
    subst h0
    cases initialized <;>
      simp [chatCompletionsHandler, responseStatus, responseErrType]
  · intro he
    subst he
    unfold chatCompletionsHandler
    repeat' split
    all_goals simp_all
  · intro hinit hcount hmsg hegr
    subst hinit
    subst hegr
    obtain ⟨c, hstream⟩ := streamFlagOfMessagesOk requestData false hmsg
    cases c <;>
      simp [chatCompletionsHandler, hcount, hmsg, hstream, responseStatus, responseErrType]
  · unfold chatCompletionsHandler
    repeat' split
    all_goals simp

theorem c5_witness :
    responseStatus (chatCompletionsHandler true 0 true validBody []).response = 500 ∧
    responseErrType (chatCompletionsHandler true 0 true validBody []).response =
      some "server_error" ∧
    (chatCompletionsHandler true 0 true validBody []).upstreamCalls = 0 ∧
    (chatCompletionsHandler true 1 false validBody []).response =
      .errorJson 500 "Internal server error: NoEgressAvailable" "server_error" ∧
    responseStatus (chatCompletionsHandler true 1 false validBody []).response = 500 ∧
    responseErrType (chatCompletionsHandler true 1 false validBody []).response =
      some "server_error" ∧
    (chatCompletionsHandler true 1 false validBody []).upstreamCalls = 0 :=
  ⟨((c5_pool_exhaustion true 0 true validBody []).1 rfl).1,
   ((c5_pool_exhaustion true 0 true validBody []).1 rfl).2.1,
   ((c5_pool_exhaustion true 0 true validBody []).1 rfl).2.2,
   ((c5_pool_exhaustion true 1 false validBody []).2.2.1 rfl (by decide) rfl rfl).1,
   ((c5_pool_exhaustion true 1 false validBody []).2.2.1 rfl (by decide) rfl rfl).2.1,
   ((c5_pool_exhaustion true 1 false validBody []).2.2.1 rfl (by decide) rfl rfl).2.2.1,
   ((c5_pool_exhaustion true 1 false validBody []).2.2.1 rfl (by decide) rfl rfl).2.2.2⟩

/-- C6 counterexample. -/
theorem c6_counterexample :
    responseStatus (chatCompletionsHandler true 1 true validBody roundTripEvents).response
      = 200 ∧
    (chatCompletionsHandler true 1 true validBody roundTripEvents).upstreamCalls = 1 ∧
    (chatCompletionsHandler true 1 true validBody roundTripEvents).closeCallsStreamEnd
      = false :=
  ⟨rfl, rfl, rfl⟩

/-- C6 (corrected). -/
theorem c6_cancellation_streaming_only (validCookieCount : Nat) (requestData : JsonVal)
    (upstreamChunks : List String) (b : Bool)
    (hcount : validCookieCount ≠ 0)
    (hmsg : messagesCheck requestData = .ok false)
    (hstream : streamFlag requestData = .ok b) :
    (chatCompletionsHandler true validCookieCount true requestData
      upstreamChunks).closeCallsStreamEnd = b := by
  cases b <;> simp [chatCompletionsHandler, hcount, hmsg, hstream]

theorem c6_witness :
    (chatCompletionsHandler true 1 true validStreamBody []).closeCallsStreamEnd = true ∧
    (chatCompletionsHandler true 1 true validBody []).closeCallsStreamEnd = false :=
  ⟨c6_cancellation_streaming_only 1 validStreamBody [] true (by decide) rfl rfl,
   c6_cancellation_streaming_only 1 validBody [] false (by decide) rfl rfl⟩

/-- C7 (confirmed). -/
theorem c7_authentication (expectedToken : String) (authHeader : Option String) :
    (authenticate expectedToken authHeader = .nextCalled ↔
      ∃ h, authHeader = some h ∧ bearerTag.isPrefixOf h.data = true ∧
        (splitChar ' ' h.data)[1]? = some expectedToken.data) ∧
    (∀ s m t, authenticate expectedToken authHeader = .rejected s m t →
      s = 401 ∧ t = "authentication_error") :=
  ⟨authNextIff expectedToken authHeader,
   fun s m t h => authRejectedShape expectedToken authHeader s m t h⟩

theorem c7_witness :
    authenticate "secret" (some "Bearer secret") = .nextCalled :=
  (c7_authentication "secret" (some "Bearer secret")).1.mpr
    ⟨"Bearer secret", rfl, rfl, rfl⟩

/-- C8 (confirmed). -/
theorem c8_done_filter :
    (∀ chunkStr : String, containsSeq doneTag chunkStr.data = true →
      processChunk chunkStr = none) ∧
    eventDeltaContent doneContentEvent = some "ab [DONE] cd" ∧
    processChunk doneContentEvent = none := by
  refine ⟨fun c hc => ?_, rfl, rfl⟩
  simp [processChunk, hc]

theorem c8_witness :
    containsSeq doneTag doneContentEvent.data = true ∧
    processChunk doneContentEvent = none :=
  ⟨rfl, c8_done_filter.1 doneContentEvent rfl⟩

/-- C9 counterexample. -/
theorem c9_counterexample :
    expectedTokenOfEnv none = "default_token" ∧
    (splitChar ' ' ("NotBearer default_token").data)[1]? = some ("default_token").data ∧
    authenticate (expectedTokenOfEnv none) (some "NotBearer default_token") ≠ .nextCalled ∧
    authenticate (expectedTokenOfEnv none) (some "Bearer default_token extra") = .nextCalled :=
  ⟨rfl, rfl, by decide, rfl⟩

/-- C9 (corrected). -/
theorem c9_default_token_auth :
    expectedTokenOfEnv none = "default_token" ∧
    (∀ env hdr, authenticate (expectedTokenOfEnv env) hdr = .nextCalled ↔
      ∃ h, hdr = some h ∧ bearerTag.isPrefixOf h.data = true ∧
        (splitChar ' ' h.data)[1]? = some (expectedTokenOfEnv env).data) :=
  ⟨rfl, fun env hdr => authNextIff (expectedTokenOfEnv env) hdr⟩

theorem c9_witness :
    authenticate (expectedTokenOfEnv none) (some "Bearer default_token") = .nextCalled :=
  (c9_default_token_auth.2 none (some "Bearer default_token")).mpr
    ⟨"Bearer default_token", rfl, rfl, rfl⟩

/-- C10 (confirmed). -/
theorem c10_stream_content_type (validCookieCount : Nat) (egressAvailable : Bool)
    (requestData : JsonVal) (upstreamChunks : List String)
    (hcount : validCookieCount ≠ 0)
    (hmsg : messagesCheck requestData = .ok false)
    (hstream : streamFlag requestData = .ok true) :
    (chatCompletionsHandler true validCookieCount egressAvailable requestData
        upstreamChunks).headersSet =
      [("Content-Type", "text-event-stream"), ("Cache-Control", "no-cache"),
       ("Connection", "keep-alive")] ∧
    ("text-event-stream" : String) ≠ "text/event-stream" := by
  constructor
  · cases egressAvailable <;>
      simp [chatCompletionsHandler, hcount, hmsg, hstream, streamingHeaders]
  · decide

theorem c10_witness :
    (chatCompletionsHandler true 1 true validStreamBody []).headersSet =
      [("Content-Type", "text-event-stream"), ("Cache-Control", "no-cache"),
       ("Connection", "keep-alive")] ∧
    ("text-event-stream" : String) ≠ "text/event-stream" :=
  c10_stream_content_type 1 true validStreamBody [] (by decide) rfl rfl
